import Mathlib

/-!
Shallow embedding of the audio-chat client (src/src/services/audioService.ts
and src/src/hooks/useAudioChat.ts).

Modelling conventions:
* Platform handles (RTCPeerConnection, RTCDataChannel, HTMLAudioElement,
  MediaStreamTrack) are identified by natural-number ids; a MediaStream is an
  id together with the ids of its tracks.
* Side effects on the platform (stopping a track, closing a channel or
  connection, clearing an audio element source, console logging, dispatching
  a window CustomEvent) are recorded in an effect trace.
* Fallible platform calls (getUserMedia, fetch) are modelled by an
  environment record carrying their outcome; JSON.parse is modelled by its
  result, an `Except` of a JSON value.
* A thrown JS Error is modelled as `Except.error` carrying the message
  string; methods return an `Outcome`: the post-call session state, the
  effect trace, and the normal/thrown result.
-/

namespace AudioChat

/-- A media stream: its id and the ids of its tracks
(`MediaStream.getTracks`). -/
structure MediaStream where
  id : Nat
  tracks : List Nat
deriving DecidableEq

/-- A JSON value, the result type of `JSON.parse`. -/
inductive Json where
  | null : Json
  | bool : Bool → Json
  | num : Int → Json
  | str : String → Json
  | arr : List Json → Json
  | obj : List (String × Json) → Json

/-- JavaScript property access `data.k` on a parsed JSON value, for values on
which it does not throw: `none` models `undefined` (missing key or non-object
receiver). Later duplicate keys shadow earlier ones, as in `JSON.parse`. -/
def Json.field : Json → String → Option Json
  | .obj fields, k => ((fields.filter (fun p => p.1 = k)).getLast?).map Prod.snd
  | _, _ => none

/-- Observable side effects on the platform. -/
inductive Effect where
  | trackStop : Nat → Effect
  | addTrack : Nat → Nat → Effect
  | channelClose : Nat → Effect
  | connClose : Nat → Effect
  | clearSrcObject : Nat → Effect
  | log : String → Effect
  | logError : String → Effect
  | dispatchEvent : String → Option Json → Effect

/-- The `AudioSession` record of audioService.ts. -/
structure AudioSession where
  peerConnection : Option Nat
  dataChannel : Option Nat
  stream : Option MediaStream
  audioElement : Option Nat
  isInitialized : Bool
  retryCount : Nat
  maxRetries : Nat
deriving DecidableEq

/-- The fresh session record assigned by `cleanupSession` (and the initial
value of `this.session`). -/
def cleanState : AudioSession :=
  { peerConnection := none
    dataChannel := none
    stream := none
    audioElement := none
    isInitialized := false
    retryCount := 0
    maxRetries := 3 }

/-- Result of running one AudioService method: the session state afterwards,
the emitted effect trace, and the returned/thrown result. -/
structure Outcome (α : Type) where
  state : AudioSession
  effects : List Effect
  result : Except String α

/-- Environment: outcomes of the platform calls made during
`initializeSession`. `apiKey` is the `OPENAI_API_KEY` config value (`""`
models a falsy/unset key); `getUserMedia` is the result of
`navigator.mediaDevices.getUserMedia` (the error side carries the underlying
error message); `pcId`, `dcId`, `audioId` are the ids of the freshly created
peer connection, data channel, and audio element; `fetchOk` is
`sdpResponse.ok` and `fetchText` the response body text. -/
structure Env where
  apiKey : String
  getUserMedia : Except String MediaStream
  pcId : Nat
  dcId : Nat
  audioId : Nat
  fetchOk : Bool
  fetchText : String

/-- `stopStreaming()`: if a stream is present, stop each of its tracks and
null the handle; unconditionally clear `isInitialized`. It contains no throw
statement, so its result is always `.ok`. -/
def stopStreaming (s : AudioSession) : Outcome Unit :=
  match s.stream with
  | some ms =>
      { state := { s with stream := none, isInitialized := false }
        effects := ms.tracks.map Effect.trackStop
        result := .ok () }
  | none =>
      { state := { s with isInitialized := false }
        effects := []
        result := .ok () }

/-- `cleanupSession()`: calls `stopStreaming`, closes the data channel and
peer connection if present, clears the audio element source if present, then
replaces `this.session` with a fresh record. -/
def cleanupSession (s : AudioSession) : AudioSession × List Effect :=
  let o := stopStreaming s
  let eDc := match o.state.dataChannel with
    | some dc => [Effect.channelClose dc]
    | none => []
  let ePc := match o.state.peerConnection with
    | some pc => [Effect.connClose pc]
    | none => []
  let eAu := match o.state.audioElement with
    | some el => [Effect.clearSrcObject el]
    | none => []
  (cleanState, o.effects ++ eDc ++ ePc ++ eAu)

/-- `disconnect()`: just `cleanupSession`; no throw statement. -/
def disconnect (s : AudioSession) : Outcome Unit :=
  { state := (cleanupSession s).1, effects := (cleanupSession s).2, result := .ok () }

/-- `startStreaming()`: throws when the session is not initialized, throws
when the stream or peer connection handle is absent, otherwise only logs. -/
def startStreaming (s : AudioSession) : Outcome Unit :=
  if !s.isInitialized then
    { state := s, effects := [], result := .error "Session not initialized" }
  else if s.stream = none ∨ s.peerConnection = none then
    { state := s, effects := []
      result := .error "Audio stream or peer connection not available" }
  else
    { state := s, effects := [Effect.log "Audio streaming active"]
      result := .ok () }

/-- `setupMediaStream()`: `getUserMedia` with the audio constraints; on
failure wraps the underlying message in `Failed to access microphone: ...`. -/
def setupMediaStream (env : Env) : Except String MediaStream :=
  match env.getUserMedia with
  | .ok ms => .ok ms
  | .error msg => .error ("Failed to access microphone: " ++ msg)

/-- `createAndSendOffer()`: throws if the peer connection handle is absent;
models `createOffer`/`setLocalDescription`/`setRemoteDescription` as
effect-free platform calls and `fetch` by `env.fetchOk`/`env.fetchText`; a
non-ok response throws `Failed to establish WebRTC connection: <body>`. -/
def createAndSendOffer (env : Env) (s : AudioSession) : Except String Unit :=
  match s.peerConnection with
  | none => .error "Peer connection not initialized"
  | some _ =>
      if env.fetchOk then .ok ()
      else .error ("Failed to establish WebRTC connection: " ++ env.fetchText)

/-- `initializeSession()`: inside a try block, tears down the prior session,
throws if the API key is falsy, acquires the capture stream, creates the peer
connection, adds each local track to it, creates the audio element, creates
the data channel, performs the offer/answer exchange, then marks the session
initialized and zeroes `retryCount`; the catch block tears the session down
again and re-throws. -/
def initializeSession (env : Env) (s : AudioSession) : Outcome Unit :=
  let s0 := (cleanupSession s).1
  let e0 := (cleanupSession s).2
  if env.apiKey = "" then
    { state := (cleanupSession s0).1, effects := e0 ++ (cleanupSession s0).2
      result := .error "OpenAI API key is not configured" }
  else
    match setupMediaStream env with
    | .error msg =>
        { state := (cleanupSession s0).1, effects := e0 ++ (cleanupSession s0).2
          result := .error msg }
    | .ok ms =>
        let s1 := { s0 with stream := some ms }
        let s2 := { s1 with peerConnection := some env.pcId }
        let eTracks := ms.tracks.map (Effect.addTrack env.pcId)
        let s3 := { s2 with audioElement := some env.audioId }
        let s4 := { s3 with dataChannel := some env.dcId }
        match createAndSendOffer env s4 with
        | .ok _ =>
            { state := { s4 with isInitialized := true, retryCount := 0 }
              effects := e0 ++ eTracks
              result := .ok () }
        | .error msg =>
            { state := (cleanupSession s4).1
              effects := e0 ++ eTracks ++ (cleanupSession s4).2
              result := .error msg }

/-- `handleConnectionFailure()`: when `retryCount < maxRetries`, increments
the counter, logs, and re-runs `initializeSession`; otherwise tears down and
throws the terminal error. -/
def handleConnectionFailure (env : Env) (s : AudioSession) : Outcome Unit :=
  if s.retryCount < s.maxRetries then
    let s1 := { s with retryCount := s.retryCount + 1 }
    let o := initializeSession env s1
    { o with effects :=
        Effect.log ("Retrying connection (attempt " ++ toString s1.retryCount ++ ")")
          :: o.effects }
  else
    { state := (cleanupSession s).1, effects := (cleanupSession s).2
      result := .error "Connection failed after maximum retry attempts" }

/-- Is this JSON value `null`? (`data.type` on `null` throws a TypeError.) -/
def Json.isNull : Json → Bool
  | .null => true
  | _ => false

/-- JavaScript strict equality `v === 'lit'` between a JSON value and a
string literal, as performed by the `switch` cases. -/
def Json.isStr : Json → String → Bool
  | .str s, lit => s = lit
  | _, _ => false

/-- Does `data.k === 'lit'` hold (missing field / non-string never match)? -/
def Json.fieldIsStr (data : Json) (k lit : String) : Bool :=
  match data.field k with
  | some v => v.isStr lit
  | none => false

/-- `handleDataChannelMessage(event)`: the whole body is wrapped in
try/catch, so the method itself never throws. The argument is the result of
`JSON.parse(event.data)` (`.error` models a parse exception). Property access
`data.type` on the JSON value `null` throws a TypeError, which the catch
block logs. Otherwise the switch on `data.type` dispatches one window
CustomEvent for the types `text`, `transcription` and `error`, and only logs
any other payload. -/
def handleDataChannelMessage (parsed : Except String Json) (s : AudioSession) :
    Outcome Unit :=
  match parsed with
  | .error e =>
      { state := s
        effects := [Effect.logError ("Error handling data channel message: " ++ e)]
        result := .ok () }
  | .ok data =>
      if data.isNull then
        { state := s
          effects := [Effect.logError
            "Error handling data channel message: TypeError: Cannot read properties of null"]
          result := .ok () }
      else if data.fieldIsStr "type" "text" then
        { state := s
          effects := [Effect.dispatchEvent "ai-message" (data.field "text")]
          result := .ok () }
      else if data.fieldIsStr "type" "transcription" then
        { state := s
          effects := [Effect.dispatchEvent "transcription" (data.field "text")]
          result := .ok () }
      else if data.fieldIsStr "type" "error" then
        { state := s
          effects := [Effect.dispatchEvent "call-error" (data.field "error")]
          result := .ok () }
      else
        { state := s, effects := [Effect.log "Received event:"], result := .ok () }

/-- The window CustomEvents dispatched in an effect trace, in order:
event name and detail. -/
def dispatched (l : List Effect) : List (String × Option Json) :=
  l.filterMap fun e =>
    match e with
    | .dispatchEvent n d => some (n, d)
    | _ => none

/-- The `CallState` record of useAudioChat.ts. -/
structure CallState where
  isConnected : Bool
  isListening : Bool
  error : Option String
  sessionId : Option String
deriving DecidableEq

/-- `initializeCall` of useAudioChat.ts: generates a session id, checks the
microphone permission (`hasPermission` is the boolean `checkPermissions`
resolved to), throws `Microphone permission not granted` when it is false,
otherwise awaits `audioService.initializeSession` (`initResult` is its
outcome, `.error` carrying the thrown Error message); on success stores
connected state and the session id and returns `true`; the catch block stores
the error message, clears `isConnected` and `sessionId`, and returns
`false` — it never re-throws. -/
def initializeCall (hasPermission : Bool) (initResult : Except String Unit)
    (newSessionId : String) (prev : CallState) : CallState × Bool :=
  if !hasPermission then
    ({ prev with error := some "Microphone permission not granted"
                 isConnected := false
                 sessionId := none }, false)
  else
    match initResult with
    | .ok _ =>
        ({ prev with isConnected := true
                     sessionId := some newSessionId
                     error := none }, true)
    | .error msg =>
        ({ prev with error := some msg
                     isConnected := false
                     sessionId := none }, false)


/-! ## Helper lemmas -/

/-- `cleanupSession` always leaves the fresh session record. -/
theorem cleanupSession_state (s : AudioSession) : (cleanupSession s).1 = cleanState := rfl

/-- Effect trace of `cleanupSession`, written out. -/
theorem cleanupSession_effects (s : AudioSession) :
    (cleanupSession s).2 =
      (match s.stream with
        | some ms => ms.tracks.map Effect.trackStop
        | none => []) ++
      (match s.dataChannel with
        | some dc => [Effect.channelClose dc]
        | none => []) ++
      (match s.peerConnection with
        | some pc => [Effect.connClose pc]
        | none => []) ++
      (match s.audioElement with
        | some el => [Effect.clearSrcObject el]
        | none => []) := by
  cases h : s.stream <;>
    simp [cleanupSession, stopStreaming, h]

/-- `cleanupSession` on the fresh record produces no effects. -/
theorem cleanupSession_cleanState : cleanupSession cleanState = (cleanState, []) := rfl

/-! ## Theorems for the claims -/

/-- C9: `startStreaming` never modifies the session: whether it throws
(session not initialized, or stream/peer connection absent) or returns
normally, the post-call state equals the pre-call state. -/
theorem startStreaming_frame (s : AudioSession) : (startStreaming s).state = s := by
  unfold startStreaming
  split <;> [rfl; split <;> rfl]

/-- C5: `stopStreaming` stops every track of the previously active stream,
nulls the stream handle, clears `isInitialized`, and changes no other session
field. -/
theorem stopStreaming_spec (s : AudioSession) :
    (stopStreaming s).state.stream = none ∧
    (stopStreaming s).state.isInitialized = false ∧
    (∀ ms, s.stream = some ms →
      (stopStreaming s).effects = ms.tracks.map Effect.trackStop) ∧
    (stopStreaming s).state.peerConnection = s.peerConnection ∧
    (stopStreaming s).state.dataChannel = s.dataChannel ∧
    (stopStreaming s).state.audioElement = s.audioElement ∧
    (stopStreaming s).state.retryCount = s.retryCount ∧
    (stopStreaming s).state.maxRetries = s.maxRetries := by
  cases h : s.stream <;> simp [stopStreaming, h]

/-- C5 witness: `stopStreaming` on a session holding a two-track stream. -/
theorem stopStreaming_spec_witness :
    (stopStreaming
        { peerConnection := some 2, dataChannel := some 3
          stream := some ⟨1, [10, 11]⟩, audioElement := some 4
          isInitialized := true, retryCount := 1, maxRetries := 3 }).effects =
      [Effect.trackStop 10, Effect.trackStop 11] :=
  (stopStreaming_spec
      { peerConnection := some 2, dataChannel := some 3
        stream := some ⟨1, [10, 11]⟩, audioElement := some 4
        isInitialized := true, retryCount := 1, maxRetries := 3 }).2.2.1
    ⟨1, [10, 11]⟩ rfl

/-- A sample fully-populated session used in witnesses. -/
def sampleSession : AudioSession :=
  { peerConnection := some 2, dataChannel := some 3
    stream := some ⟨1, [10, 11]⟩, audioElement := some 4
    isInitialized := true, retryCount := 2, maxRetries := 3 }

/-- C3: after `disconnect()` returns, every resource handle of the session is
released: the state is the fresh record (stream, data channel, peer
connection and audio element null, `isInitialized` false, `retryCount` 0),
every track of the prior stream is stopped, and the prior data channel and
peer connection are closed (and the prior audio element source cleared). -/
theorem disconnect_teardown (s : AudioSession) :
    (disconnect s).state = cleanState ∧
    (∀ ms, s.stream = some ms →
      ∀ t ∈ ms.tracks, Effect.trackStop t ∈ (disconnect s).effects) ∧
    (∀ dc, s.dataChannel = some dc →
      Effect.channelClose dc ∈ (disconnect s).effects) ∧
    (∀ pc, s.peerConnection = some pc →
      Effect.connClose pc ∈ (disconnect s).effects) ∧
    (∀ el, s.audioElement = some el →
      Effect.clearSrcObject el ∈ (disconnect s).effects) := by
  have he : (disconnect s).effects = (cleanupSession s).2 := rfl
  refine ⟨rfl, ?_, ?_, ?_, ?_⟩
  · intro ms hms t ht
    rw [he, cleanupSession_effects, hms]
    simp only [List.mem_append, List.mem_map]
    exact Or.inl (Or.inl (Or.inl ⟨t, ht, rfl⟩))
  · intro dc hdc
    rw [he, cleanupSession_effects, hdc]
    simp
  · intro pc hpc
    rw [he, cleanupSession_effects, hpc]
    simp
  · intro el hel
    rw [he, cleanupSession_effects, hel]
    simp

/-- C3 witness: `disconnect` on a fully-populated session. -/
theorem disconnect_teardown_witness :
    (disconnect sampleSession).state = cleanState ∧
    Effect.trackStop 10 ∈ (disconnect sampleSession).effects ∧
    Effect.trackStop 11 ∈ (disconnect sampleSession).effects ∧
    Effect.channelClose 3 ∈ (disconnect sampleSession).effects ∧
    Effect.connClose 2 ∈ (disconnect sampleSession).effects ∧
    Effect.clearSrcObject 4 ∈ (disconnect sampleSession).effects :=
  ⟨(disconnect_teardown sampleSession).1,
   (disconnect_teardown sampleSession).2.1 ⟨1, [10, 11]⟩ rfl 10 (by simp),
   (disconnect_teardown sampleSession).2.1 ⟨1, [10, 11]⟩ rfl 11 (by simp),
   (disconnect_teardown sampleSession).2.2.1 3 rfl,
   (disconnect_teardown sampleSession).2.2.2.1 2 rfl,
   (disconnect_teardown sampleSession).2.2.2.2 4 rfl⟩

/-- C4 counterexample: on an uninitialized session, `stopStreaming` and
`disconnect` return normally instead of raising an error, so the claim that
all three operations refuse to proceed when `isInitialized` is false fails. -/
theorem noGuard_counterexample :
    cleanState.isInitialized = false ∧
    (stopStreaming cleanState).result = .ok () ∧
    (disconnect cleanState).result = .ok () :=
  ⟨rfl, rfl, rfl⟩

/-- C4 amended: only `startStreaming` guards on the initialization flag,
raising an error when `isInitialized` is false; `stopStreaming` and
`disconnect` perform their teardown unconditionally and never raise. -/
theorem guards_amended (s : AudioSession) :
    (s.isInitialized = false →
      (startStreaming s).result = .error "Session not initialized") ∧
    (stopStreaming s).result = .ok () ∧
    (disconnect s).result = .ok () := by
  refine ⟨fun h => ?_, ?_, rfl⟩
  · simp [startStreaming, h]
  · cases h : s.stream <;> simp [stopStreaming, h]

/-- C4 witness: the amended guard behaviour on the fresh session record. -/
theorem guards_amended_witness :
    (startStreaming cleanState).result = .error "Session not initialized" ∧
    (stopStreaming cleanState).result = .ok () ∧
    (disconnect cleanState).result = .ok () :=
  ⟨(guards_amended cleanState).1 rfl,
   (guards_amended cleanState).2.1,
   (guards_amended cleanState).2.2⟩

/-- C2: whenever `initializeSession` fails (missing API key, capture failure,
or non-2xx HTTP exchange), the error propagates to the caller and the
post-failure session state is fully torn down: all handles null,
`isInitialized` false, `retryCount` 0. -/
theorem initializeSession_failure_teardown (env : Env) (s : AudioSession)
    (e : String) (h : (initializeSession env s).result = .error e) :
    (initializeSession env s).state = cleanState := by
  by_cases hk : env.apiKey = ""
  · simp [initializeSession, hk, cleanupSession_state]
  · cases hm : env.getUserMedia with
    | error msg =>
        simp [initializeSession, setupMediaStream, hk, hm, cleanupSession_state]
    | ok ms =>
        by_cases hf : env.fetchOk
        · simp [initializeSession, setupMediaStream, createAndSendOffer,
            hk, hm, hf] at h
        · simp [initializeSession, setupMediaStream, createAndSendOffer,
            hk, hm, hf, cleanupSession_state]

/-- C2 witness: a missing API key makes `initializeSession` throw and leave
the fresh record. -/
theorem initializeSession_failure_teardown_witness :
    (initializeSession
        { apiKey := "", getUserMedia := .ok ⟨1, [10, 11]⟩, pcId := 2
          dcId := 3, audioId := 4, fetchOk := true, fetchText := "v=0" }
        sampleSession).state = cleanState :=
  initializeSession_failure_teardown
    { apiKey := "", getUserMedia := .ok ⟨1, [10, 11]⟩, pcId := 2
      dcId := 3, audioId := 4, fetchOk := true, fetchText := "v=0" }
    sampleSession "OpenAI API key is not configured" rfl

/-- C7: `initializeSession` first tears down the prior session (its effect
trace starts with the teardown of the prior record) and recreates the
session record from scratch: its resulting state and result are those of a
run started from the fresh record, so no field of the previous session
record survives into the new attempt. -/
theorem initializeSession_recreates (env : Env) (s : AudioSession) :
    (initializeSession env s).state = (initializeSession env cleanState).state ∧
    (initializeSession env s).result = (initializeSession env cleanState).result ∧
    (initializeSession env s).effects =
      (cleanupSession s).2 ++ (initializeSession env cleanState).effects := by
  by_cases hk : env.apiKey = ""
  · simp [initializeSession, hk, cleanupSession_state, cleanupSession_cleanState]
  · cases hm : env.getUserMedia with
    | error msg =>
        simp [initializeSession, setupMediaStream, hk, hm,
          cleanupSession_state, cleanupSession_cleanState]
    | ok ms =>
        by_cases hf : env.fetchOk
        · simp [initializeSession, setupMediaStream, createAndSendOffer,
            hk, hm, hf, cleanupSession_state, cleanupSession_cleanState]
        · simp [initializeSession, setupMediaStream, createAndSendOffer,
            hk, hm, hf, cleanupSession_state, cleanupSession_cleanState]

/-- Environment in which every platform call succeeds. -/
def envOk : Env :=
  { apiKey := "sk-test", getUserMedia := .ok ⟨1, [10, 11]⟩, pcId := 2
    dcId := 3, audioId := 4, fetchOk := true, fetchText := "v=0" }

/-- Session state after `n` consecutive transport-failure callbacks, each
running `handleConnectionFailure` to completion. -/
def failuresAfter (env : Env) : Nat → AudioSession → AudioSession
  | 0, s => s
  | n + 1, s => failuresAfter env n (handleConnectionFailure env s).state

/-- C1: the retry cap is never reached. Because `initializeSession` begins
with `cleanupSession`, which resets `retryCount` to 0, after three
consecutive transport failures the counter is still 0, a fourth failure
callback still satisfies `retryCount < maxRetries` and calls
`initializeSession` again (returning normally with a re-initialized
session), contradicting the claim that the third failure is terminal. -/
theorem retry_cap_never_reached :
    (failuresAfter envOk 3 (initializeSession envOk cleanState).state).retryCount = 0 ∧
    (failuresAfter envOk 3 (initializeSession envOk cleanState).state).retryCount <
      (failuresAfter envOk 3 (initializeSession envOk cleanState).state).maxRetries ∧
    (handleConnectionFailure envOk
        (failuresAfter envOk 3 (initializeSession envOk cleanState).state)).result =
      .ok () ∧
    (handleConnectionFailure envOk
        (failuresAfter envOk 3
          (initializeSession envOk cleanState).state)).state.isInitialized = true := by
  refine ⟨rfl, ?_, rfl, rfl⟩
  decide

/-- If a field lookup yields a value, the receiver is not `null`. -/
theorem field_some_not_null (data : Json) (k : String) (v : Json)
    (h : data.field k = some v) : data.isNull = false := by
  cases data <;> simp [Json.field, Json.isNull] at h ⊢

/-- C6: for every well-formed JSON payload, the handler dispatches exactly
one global notification determined by the payload type field: type `text`
dispatches `ai-message` carrying the payload text, type `transcription`
dispatches `transcription` carrying the payload text, type `error`
dispatches `call-error` carrying the payload error field, and any payload
whose type matches none of these dispatches nothing. -/
theorem handler_dispatch (data : Json) (s : AudioSession) :
    (data.field "type" = some (.str "text") →
      dispatched (handleDataChannelMessage (.ok data) s).effects =
        [("ai-message", data.field "text")]) ∧
    (data.field "type" = some (.str "transcription") →
      dispatched (handleDataChannelMessage (.ok data) s).effects =
        [("transcription", data.field "text")]) ∧
    (data.field "type" = some (.str "error") →
      dispatched (handleDataChannelMessage (.ok data) s).effects =
        [("call-error", data.field "error")]) ∧
    (data.fieldIsStr "type" "text" = false →
      data.fieldIsStr "type" "transcription" = false →
      data.fieldIsStr "type" "error" = false →
      dispatched (handleDataChannelMessage (.ok data) s).effects = []) := by
  refine ⟨fun h => ?_, fun h => ?_, fun h => ?_, fun h1 h2 h3 => ?_⟩
  · have hn := field_some_not_null data "type" _ h
    have ht : data.fieldIsStr "type" "text" = true := by
      rw [Json.fieldIsStr, h]; rfl
    simp [handleDataChannelMessage, hn, ht, dispatched]
  · have hn := field_some_not_null data "type" _ h
    have ht1 : data.fieldIsStr "type" "text" = false := by
      rw [Json.fieldIsStr, h]; rfl
    have ht2 : data.fieldIsStr "type" "transcription" = true := by
      rw [Json.fieldIsStr, h]; rfl
    simp [handleDataChannelMessage, hn, ht1, ht2, dispatched]
  · have hn := field_some_not_null data "type" _ h
    have ht1 : data.fieldIsStr "type" "text" = false := by
      rw [Json.fieldIsStr, h]; rfl
    have ht2 : data.fieldIsStr "type" "transcription" = false := by
      rw [Json.fieldIsStr, h]; rfl
    have ht3 : data.fieldIsStr "type" "error" = true := by
      rw [Json.fieldIsStr, h]; rfl
    simp [handleDataChannelMessage, hn, ht1, ht2, ht3, dispatched]
  · cases hn : data.isNull <;>
      simp [handleDataChannelMessage, hn, h1, h2, h3, dispatched]

/-- C6 witness: a `text` payload dispatches one `ai-message` notification
carrying its text field. -/
theorem handler_dispatch_witness :
    dispatched (handleDataChannelMessage
        (.ok (Json.obj [("type", Json.str "text"), ("text", Json.str "hello")]))
        cleanState).effects =
      [("ai-message", some (Json.str "hello"))] :=
  (handler_dispatch
      (Json.obj [("type", Json.str "text"), ("text", Json.str "hello")])
      cleanState).1 rfl

/-- C10: the data-channel message handler never throws: it returns normally
on every input and leaves the session state unchanged, and when the payload
is not well-formed JSON the parse error is caught and logged and no global
notification is dispatched. -/
theorem handler_never_throws (parsed : Except String Json) (s : AudioSession) :
    (handleDataChannelMessage parsed s).result = .ok () ∧
    (handleDataChannelMessage parsed s).state = s ∧
    (∀ e, parsed = .error e →
      dispatched (handleDataChannelMessage parsed s).effects = [] ∧
      (handleDataChannelMessage parsed s).effects =
        [Effect.logError ("Error handling data channel message: " ++ e)]) := by
  cases parsed with
  | error e =>
      exact ⟨rfl, rfl, fun e2 he => by injection he with h; subst h; exact ⟨rfl, rfl⟩⟩
  | ok data =>
      refine ⟨?_, ?_, fun e2 he => by cases he⟩ <;>
        · unfold handleDataChannelMessage
          (repeat' split) <;> rfl

/-- C10 witness: a malformed payload is logged, dispatches nothing, and the
session is untouched. -/
theorem handler_never_throws_witness :
    (handleDataChannelMessage (.error "Unexpected token") cleanState).result = .ok () ∧
    (handleDataChannelMessage (.error "Unexpected token") cleanState).state = cleanState ∧
    dispatched (handleDataChannelMessage
        (.error "Unexpected token") cleanState).effects = [] ∧
    (handleDataChannelMessage (.error "Unexpected token") cleanState).effects =
      [Effect.logError "Error handling data channel message: Unexpected token"] :=
  ⟨(handler_never_throws (.error "Unexpected token") cleanState).1,
   (handler_never_throws (.error "Unexpected token") cleanState).2.1,
   ((handler_never_throws (.error "Unexpected token") cleanState).2.2
      "Unexpected token" rfl).1,
   ((handler_never_throws (.error "Unexpected token") cleanState).2.2
      "Unexpected token" rfl).2⟩

/-- C8: `initializeCall` never re-throws: when the microphone permission is
not granted or `initializeSession` throws, it stores the error message in
the call state, clears `isConnected` and `sessionId`, and returns `false`;
on success it sets `isConnected`, stores the generated session id, clears
the error, and returns `true`. -/
theorem initializeCall_spec (perm : Bool) (r : Except String Unit)
    (sid : String) (prev : CallState) :
    (perm = false →
      initializeCall perm r sid prev =
        ({ prev with error := some "Microphone permission not granted"
                     isConnected := false, sessionId := none }, false)) ∧
    (∀ msg, perm = true → r = .error msg →
      initializeCall perm r sid prev =
        ({ prev with error := some msg
                     isConnected := false, sessionId := none }, false)) ∧
    (perm = true → r = .ok () →
      initializeCall perm r sid prev =
        ({ prev with isConnected := true, sessionId := some sid
                     error := none }, true)) := by
  refine ⟨fun h => ?_, fun msg h hr => ?_, fun h hr => ?_⟩
  · subst h; simp [initializeCall]
  · subst h; simp [initializeCall, hr]
  · subst h; simp [initializeCall, hr]

/-- C8 witness: a failing `initializeSession` leaves a disconnected state
carrying its message, a successful one a connected state with the id. -/
theorem initializeCall_spec_witness :
    initializeCall true (.error "OpenAI API key is not configured") "id-1"
        ⟨false, false, none, none⟩ =
      (⟨false, false, some "OpenAI API key is not configured", none⟩, false) ∧
    initializeCall true (.ok ()) "id-1" ⟨false, false, none, none⟩ =
      (⟨true, false, none, some "id-1"⟩, true) ∧
    initializeCall false (.ok ()) "id-1" ⟨false, false, none, none⟩ =
      (⟨false, false, some "Microphone permission not granted", none⟩, false) :=
  ⟨(initializeCall_spec true (.error "OpenAI API key is not configured") "id-1"
      ⟨false, false, none, none⟩).2.1 "OpenAI API key is not configured" rfl rfl,
   (initializeCall_spec true (.ok ()) "id-1" ⟨false, false, none, none⟩).2.2 rfl rfl,
   (initializeCall_spec false (.ok ()) "id-1" ⟨false, false, none, none⟩).1 rfl⟩

end AudioChat
